import Mathlib

/-!
Shallow embedding of the grabid backend (src/grabid-backend/main.go):
the admission gate, the per-IP rate-limiter sweep, the client-IP
resolution of the rate-limit middleware, and the probe/stream handlers
with their size-capped body relay. Time is modelled in seconds as `Nat`;
byte sizes follow Go's `int64` conventions (`-1` = unknown content
length) as `Int`; HTTP header maps are association lists.
-/

namespace Grabid

/-- The slice of `Config` the handlers under verification read:
`MaxSize` (bytes, `int64`) and `MaxConcurrent` (semaphore capacity). -/
structure Config where
  maxSize : Int
  maxConcurrent : Nat
deriving DecidableEq, Repr

/-- Result of a wrapping middleware: pass the request through to the
next handler, or reject it with the given HTTP status. -/
inductive GateResult where
  | pass
  | reject (status : Nat)
deriving DecidableEq, Repr

/-- `AuthMiddleware` from main.go: with an empty secret every request
passes (public mode); otherwise the request passes iff its
`X-Grab-Token` header equals the secret, and is rejected with 401
otherwise. A missing header is modelled as `""`, as `Header.Get`
returns `""` for an absent key. -/
def AuthMiddleware (secret token : String) : GateResult :=
  if secret = "" then .pass
  else if token ≠ secret then .reject 401
  else .pass

/-- Staleness threshold of the rate-limiter sweep, in seconds
(`3 * time.Minute` in main.go). -/
def staleThreshold : Nat := 180

/-- `IPRateLimiter.Cleanup` from main.go: the limiter map is an
association list from IP to last-seen time (seconds); the sweep at time
`now` deletes every entry with `time.Since(lastSeen) > 3*time.Minute`. -/
def Cleanup (now : Nat) (ips : List (String × Nat)) : List (String × Nat) :=
  ips.filter (fun e => ¬ (now - e.2 > staleThreshold))

/-- Index of the last occurrence of `c` in `cs`
(`bytealg.LastIndexByteString` in Go's net package). -/
def lastIndexOf (cs : List Char) (c : Char) : Option Nat :=
  match cs.reverse.findIdx? (fun x => x = c) with
  | none => none
  | some j => some (cs.length - 1 - j)

/-- Go's `net.SplitHostPort`: splits `host:port`, `[host]:port` or
`[host%zone]:port` into host and port; `none` models every error
return (missing port, too many colons, bracket errors). -/
def splitHostPort (cs : List Char) : Option (List Char × List Char) :=
  match lastIndexOf cs ':' with
  | none => none
  | some i =>
    if cs.head? = some '[' then
      match cs.findIdx? (fun x => x = ']') with
      | none => none
      | some e =>
        if e + 1 = cs.length then none
        else if e + 1 = i then
          if (cs.drop 1).contains '[' then none
          else if (cs.drop (e + 1)).contains ']' then none
          else some ((cs.drop 1).take (e - 1), cs.drop (i + 1))
        else none
    else
      if (cs.take i).contains ':' then none
      else if cs.contains '[' then none
      else if cs.contains ']' then none
      else some (cs.take i, cs.drop (i + 1))

/-- The client-key resolution inside `RateLimitMiddleware` in main.go:
start from `r.RemoteAddr`, replace it with the `X-Forwarded-For` header
when that header is non-empty, then, if the chosen value contains a
colon and `net.SplitHostPort` succeeds on it, keep only the host part. -/
def clientKey (remoteAddr forwarded : String) : String :=
  let ip := if forwarded ≠ "" then forwarded else remoteAddr
  if ip.toList.contains ':' then
    match splitHostPort ip.toList with
    | some (host, _) => String.mk host
    | none => ip
  else ip

/-- Port-removal step alone, as the spec describes it ("the
transport-level peer address with any port suffix stripped"). -/
def stripPortSuffix (addr : String) : String :=
  if addr.toList.contains ':' then
    match splitHostPort addr.toList with
    | some (host, _) => String.mk host
    | none => addr
  else addr

/-- The upstream HTTP response as the handlers observe it:
`resp.StatusCode`, `resp.ContentLength` (`-1` = unknown), the
`Content-Type` and `Content-Disposition` headers (`""` = absent), and
the byte stream the body offers during the relay. -/
structure UpstreamResponse where
  statusCode : Nat
  contentLength : Int
  contentType : String
  contentDisposition : String
  body : List Nat
deriving DecidableEq, Repr

/-- Result of `client.Do`: a network-level failure, or a response. -/
inductive UpstreamResult where
  | netError
  | response (resp : UpstreamResponse)
deriving DecidableEq, Repr

/-- Buffer size of Go's `io.Copy` (`32 * 1024`). -/
def copyBufSize : Nat := 32 * 1024

/-- One fuelled pass of `io.Copy` over `io.LimitReader(body, n)`: each
iteration reads `min(bufSize, min(N, bytes left))` bytes (the
`LimitedReader` truncates the buffer to its remaining allowance `N`,
the source returns at most what it has) and writes them through; the
copy ends when the allowance is exhausted or the source is empty. The
fuel only drives structural recursion; `body.length` steps always
suffice because every productive iteration consumes at least one byte. -/
def limitedCopyAux (bufSize : Nat) : Nat → Int → List Nat → List Nat
  | 0, _, _ => []
  | fuel + 1, n, body =>
    if n ≤ 0 ∨ body = [] ∨ bufSize = 0 then []
    else
      let k := min bufSize (min n.toNat body.length)
      body.take k ++ limitedCopyAux bufSize fuel (n - k) (body.drop k)

/-- Bytes written by `io.Copy(w, io.LimitReader(body, n))`. -/
def limitedCopy (bufSize : Nat) (n : Int) (body : List Nat) : List Nat :=
  limitedCopyAux bufSize body.length n body

/-- A `/api/v1/stream` request as `handleStream` sees it: the HTTP
method, the `url` query parameter (`""` = absent), whether
`http.NewRequest` accepts that URL, and what `client.Do` returns
for it. -/
structure StreamRequest where
  method : String
  urlParam : String
  urlParses : Bool
  upstream : UpstreamResult
deriving DecidableEq, Repr

/-- The possible terminal behaviours of `handleStream`, one constructor
per `http.Error`/success exit of the Go function; `ok` carries the
response headers set by the header butler and the upstream body bytes
relayed to the client. -/
inductive StreamOutcome where
  | methodNotAllowed
  | serviceUnavailable
  | missingUrl
  | invalidUrl
  | unreachable
  | upstreamError (code : Nat)
  | payloadTooLarge
  | ok (headers : List (String × String)) (relayed : List Nat)
deriving DecidableEq, Repr

/-- HTTP status written for each outcome (405, 503, 400, 400, 502, 502,
413 in the Go source; 200 is committed by the first successful write). -/
def streamStatus : StreamOutcome → Nat
  | .methodNotAllowed => 405
  | .serviceUnavailable => 503
  | .missingUrl => 400
  | .invalidUrl => 400
  | .unreachable => 502
  | .upstreamError _ => 502
  | .payloadTooLarge => 413
  | .ok _ _ => 200

/-- Upstream body bytes that reach the client (error responses write
only their own error text, never upstream body bytes). -/
def relayedBytes : StreamOutcome → Nat
  | .ok _ relayed => relayed.length
  | _ => 0

/-- Response headers set before the body relay. -/
def headersOf : StreamOutcome → List (String × String)
  | .ok headers _ => headers
  | _ => []

/-- First value bound to a header key (`Header.Set` is called at most
once per key in `handleStream`, so the association list is a map). -/
def getHeader (headers : List (String × String)) (key : String) : Option String :=
  (headers.find? (fun p => p.1 = key)).map (fun p => p.2)

/-- `strings.Split(url, "/")` for the one-character separator `"/"`. -/
def splitSlash : List Char → List (List Char)
  | [] => [[]]
  | c :: rest =>
    match splitSlash rest with
    | [] => [[c]]
    | h :: t => if c = '/' then [] :: h :: t else (c :: h) :: t

/-- `parts[len(parts)-1]` for `parts := strings.Split(urlParam, "/")`
(the slice is never empty, so the default is never used). -/
def lastUrlSegment (url : String) : String :=
  String.mk ((splitSlash url.toList).getLastD [])

/-- The header butler of `handleStream`: `Content-Length` when the
upstream declared a positive one, `Content-Type` when the upstream
supplied one, and `Content-Disposition` copied from the upstream or
synthesized as an attachment named by the last `/`-separated segment of
the raw `url` parameter (none when that segment is empty). -/
def streamHeaders (urlParam : String) (resp : UpstreamResponse) : List (String × String) :=
  (if resp.contentLength > 0 then [("Content-Length", toString resp.contentLength)] else [])
  ++ (if resp.contentType ≠ "" then [("Content-Type", resp.contentType)] else [])
  ++ (if resp.contentDisposition ≠ "" then
        [("Content-Disposition", resp.contentDisposition)]
      else if lastUrlSegment urlParam ≠ "" then
        [("Content-Disposition", "attachment; filename=\"" ++ lastUrlSegment urlParam ++ "\"")]
      else [])

/-- What `handleStream` leaves behind: its terminal outcome, whether
the non-blocking `select` acquired a semaphore slot, and whether the
deferred release ran (in the Go source the `defer` releases the slot on
every exit path that follows a successful acquisition). -/
structure StreamResult where
  outcome : StreamOutcome
  slotAcquired : Bool
  slotReleased : Bool
deriving DecidableEq, Repr

/-- Body of `handleStream` from main.go after the concurrency gate, in
source order: `url` parameter presence, `http.NewRequest` validity,
`client.Do`, upstream status check, declared-size check, header butler,
capped relay. -/
def streamCore (cfg : Config) (req : StreamRequest) : StreamOutcome :=
  if req.urlParam = "" then .missingUrl
  else if ¬ req.urlParses then .invalidUrl
  else
    match req.upstream with
    | .netError => .unreachable
    | .response resp =>
      if resp.statusCode ≥ 400 then .upstreamError resp.statusCode
      else if resp.contentLength > cfg.maxSize then .payloadTooLarge
      else .ok (streamHeaders req.urlParam resp)
             (limitedCopy copyBufSize cfg.maxSize resp.body)

/-- `handleStream` from main.go: method check, then the non-blocking
semaphore acquisition (`slotsUsed` slots of `cfg.maxConcurrent` are
busy when the request arrives; the `select` takes its `default` branch
when none is free), then `streamCore`; the `defer` releases an acquired
slot on every exit path of `streamCore`. -/
def handleStream (cfg : Config) (slotsUsed : Nat) (req : StreamRequest) : StreamResult :=
  if req.method ≠ "GET" then ⟨.methodNotAllowed, false, false⟩
  else if slotsUsed < cfg.maxConcurrent then ⟨streamCore cfg req, true, true⟩
  else ⟨.serviceUnavailable, false, false⟩

/-- A `/api/v1/probe` request as `handleProbe` sees it. -/
structure ProbeRequest where
  method : String
  urlParam : String
  urlParses : Bool
  upstream : UpstreamResult
deriving DecidableEq, Repr

/-- Terminal behaviours of `handleProbe`; `ok` carries the JSON fields
`size` (`resp.ContentLength`, `-1` = unknown) and `type`. -/
inductive ProbeOutcome where
  | methodNotAllowed
  | missingUrl
  | invalidUrl
  | unreachable
  | upstreamError (code : Nat)
  | ok (size : Int) (ctype : String)
deriving DecidableEq, Repr

/-- HTTP status written for each probe outcome. -/
def probeStatus : ProbeOutcome → Nat
  | .methodNotAllowed => 405
  | .missingUrl => 400
  | .invalidUrl => 400
  | .unreachable => 502
  | .upstreamError _ => 502
  | .ok _ _ => 200

/-- Spec-side definition (NOT from the code): the "last path segment of
the target URL" in the spec's words — the last `/`-separated segment of
the URL's path component, query string and fragment excluded. Compared
against the code's `lastUrlSegment`, which splits the raw URL string. -/
def specLastPathSegment (url : String) : String :=
  String.mk ((splitSlash (url.toList.takeWhile (fun c => c ≠ '?' ∧ c ≠ '#'))).getLastD [])

/-- `handleProbe` from main.go, in source order: method check (HEAD or
GET), `url` presence, `http.NewRequest` validity, `client.Do`, upstream
status check, JSON answer. -/
def handleProbe (req : ProbeRequest) : ProbeOutcome :=
  if req.method ≠ "HEAD" ∧ req.method ≠ "GET" then .methodNotAllowed
  else if req.urlParam = "" then .missingUrl
  else if ¬ req.urlParses then .invalidUrl
  else
    match req.upstream with
    | .netError => .unreachable
    | .response resp =>
      if resp.statusCode ≥ 400 then .upstreamError resp.statusCode
      else .ok resp.contentLength resp.contentType

theorem limitedCopyAux_eq_take (bufSize : Nat) (hbuf : 0 < bufSize) :
    ∀ fuel (n : Int) (body : List Nat), body.length ≤ fuel →
      limitedCopyAux bufSize fuel n body = body.take n.toNat := by
  intro fuel
  induction fuel with
  | zero =>
    intro n body hlen
    have hb : body = [] := List.eq_nil_of_length_eq_zero (Nat.le_zero.mp hlen)
    subst hb
    simp [limitedCopyAux]
  | succ fuel ih =>
    intro n body hlen
    by_cases hguard : n ≤ 0 ∨ body = [] ∨ bufSize = 0
    · rcases hguard with hn | hb | hbuf0
      · have hz : n.toNat = 0 := by omega
        simp [limitedCopyAux, hn, hz]
      · simp [limitedCopyAux, hb]
      · omega
    · push_neg at hguard
      obtain ⟨hn, hb, _⟩ := hguard
      have hpos : 0 < n := by omega
      have hblen : 0 < body.length := List.length_pos.mpr hb
      have hk1 : 1 ≤ min bufSize (min n.toNat body.length) := by
        have : 1 ≤ n.toNat := by omega
        omega
      rw [limitedCopyAux, if_neg (by push_neg; exact ⟨by omega, hb, by omega⟩)]
      set k := min bufSize (min n.toNat body.length) with hk
      have hdrop : (body.drop k).length ≤ fuel := by
        rw [List.length_drop]; omega
      show body.take k ++ limitedCopyAux bufSize fuel (n - (k : Int)) (body.drop k)
          = body.take n.toNat
      rw [ih (n - k) (body.drop k) hdrop]
      have hkle : k ≤ n.toNat := by omega
      have htn : (n - (k : Int)).toNat = n.toNat - k := by omega
      rw [htn]
      have hsplit : n.toNat = k + (n.toNat - k) := by omega
      conv_rhs => rw [hsplit, List.take_add]

theorem limitedCopy_eq_take (bufSize : Nat) (hbuf : 0 < bufSize) (n : Int) (body : List Nat) :
    limitedCopy bufSize n body = body.take n.toNat :=
  limitedCopyAux_eq_take bufSize hbuf body.length n body (Nat.le_refl _)

theorem limitedCopy_length (bufSize : Nat) (hbuf : 0 < bufSize) (n : Int) (body : List Nat) :
    (limitedCopy bufSize n body).length = min n.toNat body.length := by
  rw [limitedCopy_eq_take bufSize hbuf, List.length_take]

theorem handleProbe_dispatched (preq : ProbeRequest)
    (hm : preq.method = "HEAD" ∨ preq.method = "GET") (hu : preq.urlParam ≠ "")
    (hp : preq.urlParses = true) :
    handleProbe preq =
      (match preq.upstream with
       | .netError => .unreachable
       | .response resp =>
          if resp.statusCode ≥ 400 then .upstreamError resp.statusCode
          else .ok resp.contentLength resp.contentType) := by
  have hmf : ¬ (preq.method ≠ "HEAD" ∧ preq.method ≠ "GET") := by tauto
  simp [handleProbe, hmf, hu, hp]

theorem handleStream_acquired (cfg : Config) (slots : Nat) (req : StreamRequest)
    (hm : req.method = "GET") (hs : slots < cfg.maxConcurrent) :
    handleStream cfg slots req = ⟨streamCore cfg req, true, true⟩ := by
  simp [handleStream, hm, hs]

theorem streamCore_dispatched (cfg : Config) (req : StreamRequest) (resp : UpstreamResponse)
    (hu : req.urlParam ≠ "") (hp : req.urlParses = true) (hup : req.upstream = .response resp) :
    streamCore cfg req =
      (if resp.statusCode ≥ 400 then .upstreamError resp.statusCode
       else if resp.contentLength > cfg.maxSize then .payloadTooLarge
       else .ok (streamHeaders req.urlParam resp)
              (limitedCopy copyBufSize cfg.maxSize resp.body)) := by
  simp [streamCore, hu, hp, hup]

theorem relayedBytes_streamCore_le (cfg : Config) (req : StreamRequest) :
    relayedBytes (streamCore cfg req) ≤ cfg.maxSize.toNat := by
  unfold streamCore
  split
  · simp [relayedBytes]
  · split
    · simp [relayedBytes]
    · split
      · simp [relayedBytes]
      · split
        · simp [relayedBytes]
        · split
          · simp [relayedBytes]
          · simp only [relayedBytes]
            rw [limitedCopy_length copyBufSize (by decide)]
            omega

/-- C1: for every streaming request, the relay writes at most
`cfg.maxSize` upstream body bytes to the client; and whenever the
request reaches the relay (declared length absent, i.e. `-1`, or at
most the cap) while the upstream offers more bytes than the cap, the
relay stops at exactly the cap's byte count. -/
theorem stream_relay_capped (cfg : Config) (slots : Nat) (req : StreamRequest) :
    relayedBytes (handleStream cfg slots req).outcome ≤ cfg.maxSize.toNat
    ∧ (∀ resp : UpstreamResponse, req.method = "GET" → slots < cfg.maxConcurrent →
        req.urlParam ≠ "" → req.urlParses = true → req.upstream = .response resp →
        resp.statusCode < 400 → resp.contentLength ≤ cfg.maxSize →
        resp.body.length > cfg.maxSize.toNat →
        relayedBytes (handleStream cfg slots req).outcome = cfg.maxSize.toNat) := by
  constructor
  · unfold handleStream
    split
    · simp [relayedBytes]
    · split
      · exact relayedBytes_streamCore_le cfg req
      · simp [relayedBytes]
  · intro resp hm hs hu hp hup hok hlen hbody
    rw [handleStream_acquired cfg slots req hm hs]
    rw [show (StreamResult.mk (streamCore cfg req) true true).outcome = streamCore cfg req from rfl]
    rw [streamCore_dispatched cfg req resp hu hp hup]
    simp [relayedBytes, Nat.not_le.mpr hok, Int.not_lt.mpr hlen]
    rw [limitedCopy_length copyBufSize (by decide)]
    omega

/-- Witness for C1: cap 3, upstream declares no length (`-1`) and
offers 5 bytes; exactly 3 bytes are relayed. -/
theorem stream_relay_capped_witness :
    relayedBytes (handleStream ⟨3, 2⟩ 0 ⟨"GET", "http://h/f.bin", true,
        .response ⟨200, -1, "application/x", "", [1, 2, 3, 4, 5]⟩⟩).outcome ≤ 3
    ∧ relayedBytes (handleStream ⟨3, 2⟩ 0 ⟨"GET", "http://h/f.bin", true,
        .response ⟨200, -1, "application/x", "", [1, 2, 3, 4, 5]⟩⟩).outcome = 3 :=
  ⟨(stream_relay_capped ⟨3, 2⟩ 0 _).1,
   (stream_relay_capped ⟨3, 2⟩ 0 _).2 ⟨200, -1, "application/x", "", [1, 2, 3, 4, 5]⟩
     rfl (by decide) (by decide) rfl rfl (by decide) (by decide) (by decide)⟩

/-- C2: a streaming request whose upstream (with a non-error status)
declares a content length strictly above the cap is answered with the
payload-too-large outcome, status 413, and no upstream body byte
reaches the client. -/
theorem stream_declared_oversize_rejected (cfg : Config) (slots : Nat) (req : StreamRequest)
    (resp : UpstreamResponse)
    (hm : req.method = "GET") (hs : slots < cfg.maxConcurrent)
    (hu : req.urlParam ≠ "") (hp : req.urlParses = true)
    (hup : req.upstream = .response resp) (hok : resp.statusCode < 400)
    (hlen : resp.contentLength > cfg.maxSize) :
    (handleStream cfg slots req).outcome = .payloadTooLarge
    ∧ streamStatus (handleStream cfg slots req).outcome = 413
    ∧ relayedBytes (handleStream cfg slots req).outcome = 0 := by
  rw [handleStream_acquired cfg slots req hm hs]
  rw [show (StreamResult.mk (streamCore cfg req) true true).outcome = streamCore cfg req from rfl]
  rw [streamCore_dispatched cfg req resp hu hp hup]
  simp [streamStatus, relayedBytes, hlen, Nat.not_le.mpr hok]

/-- Witness for C2: cap 3, upstream declares 4 bytes; outcome is 413
with zero body bytes relayed. -/
theorem stream_declared_oversize_rejected_witness :
    (handleStream ⟨3, 2⟩ 0 ⟨"GET", "http://h/big.bin", true,
        .response ⟨200, 4, "application/x", "", [9, 9, 9, 9]⟩⟩).outcome = .payloadTooLarge
    ∧ streamStatus (handleStream ⟨3, 2⟩ 0 ⟨"GET", "http://h/big.bin", true,
        .response ⟨200, 4, "application/x", "", [9, 9, 9, 9]⟩⟩).outcome = 413
    ∧ relayedBytes (handleStream ⟨3, 2⟩ 0 ⟨"GET", "http://h/big.bin", true,
        .response ⟨200, 4, "application/x", "", [9, 9, 9, 9]⟩⟩).outcome = 0 :=
  stream_declared_oversize_rejected ⟨3, 2⟩ 0 _ _ rfl (by decide) (by decide) rfl rfl
    (by decide) (by decide)

/-- C3: with an unset secret the admission gate always passes; with a
set secret it passes exactly the requests whose token equals the
secret, and rejects every other with 401. -/
theorem auth_gate_admission (secret token : String) :
    (secret = "" → AuthMiddleware secret token = .pass)
    ∧ (secret ≠ "" →
        ((AuthMiddleware secret token = .pass ↔ token = secret)
          ∧ (token ≠ secret → AuthMiddleware secret token = .reject 401))) := by
  refine ⟨fun hs => by simp [AuthMiddleware, hs],
    fun hs => ⟨⟨fun hp => ?_, fun ht => ?_⟩, fun hne => ?_⟩⟩
  · by_contra hne
    simp [AuthMiddleware, hs, hne] at hp
  · simp [AuthMiddleware, hs, ht]
  · simp [AuthMiddleware, hs, hne]

/-- Witness for C3: empty secret admits, matching token admits,
mismatching token is rejected with 401. -/
theorem auth_gate_admission_witness :
    AuthMiddleware "" "whatever" = .pass
    ∧ AuthMiddleware "s3cret" "s3cret" = .pass
    ∧ AuthMiddleware "s3cret" "wrong" = .reject 401 :=
  ⟨(auth_gate_admission "" "whatever").1 rfl,
   ((auth_gate_admission "s3cret" "s3cret").2 (by decide)).1.mpr rfl,
   ((auth_gate_admission "s3cret" "wrong").2 (by decide)).2 (by decide)⟩

/-- C4: after a sweep at time `now`, no entry whose last-access time is
more than the 180-second staleness threshold in the past remains in the
limiter map. -/
theorem cleanup_evicts_stale (now : Nat) (ips : List (String × Nat)) (ip : String) (t : Nat)
    (hstale : now - t > staleThreshold) :
    (ip, t) ∉ Cleanup now ips := by
  intro hmem
  have hp := List.of_mem_filter hmem
  simp only [decide_eq_true_eq, gt_iff_lt, Nat.not_lt] at hp
  exact Nat.lt_irrefl _ (Nat.lt_of_lt_of_le hstale hp)

/-- Witness for C4: an entry last seen at t=5 is gone after a sweep at
t=400. -/
theorem cleanup_evicts_stale_witness :
    ("10.0.0.7", 5) ∉ Cleanup 400 [("10.0.0.7", 5), ("10.0.0.8", 390)] :=
  cleanup_evicts_stale 400 [("10.0.0.7", 5), ("10.0.0.8", 390)] "10.0.0.7" 5 (by decide)

/-- Counterexample to C5: with `X-Forwarded-For: 1.2.3.4:99` the
limiter key is `1.2.3.4`, not the header's raw value — the port strip
is applied to the forwarded value too, not only to the peer address. -/
theorem clientKey_forwarded_not_raw :
    clientKey "9.9.9.9:1111" "1.2.3.4:99" = "1.2.3.4"
    ∧ clientKey "9.9.9.9:1111" "1.2.3.4:99" ≠ "1.2.3.4:99" :=
  ⟨by decide, by decide⟩

/-- C5 (amended): the limiter key is the forwarded-for header's value
when present, otherwise the peer address — in either case with a
`host:port` suffix stripped when `net.SplitHostPort` recognises one. -/
theorem clientKey_strips_chosen (remoteAddr forwarded : String) :
    clientKey remoteAddr forwarded
      = stripPortSuffix (if forwarded ≠ "" then forwarded else remoteAddr) := rfl

/-- C9: a GET stream request with no `url` parameter meets the
concurrency gate first: with every slot busy it is answered 503, and
with a free slot the slot is acquired, the request is answered 400
(missing url), and the slot is released. -/
theorem stream_missing_url_after_slot (cfg : Config) (slots : Nat) (req : StreamRequest)
    (hm : req.method = "GET") (hu : req.urlParam = "") :
    (¬ slots < cfg.maxConcurrent →
        handleStream cfg slots req = ⟨.serviceUnavailable, false, false⟩
        ∧ streamStatus (handleStream cfg slots req).outcome = 503)
    ∧ (slots < cfg.maxConcurrent →
        (handleStream cfg slots req).outcome = .missingUrl
        ∧ streamStatus (handleStream cfg slots req).outcome = 400
        ∧ (handleStream cfg slots req).slotAcquired = true
        ∧ (handleStream cfg slots req).slotReleased = true) := by
  constructor
  · intro hns
    simp [handleStream, hm, hns, streamStatus]
  · intro hs
    rw [handleStream_acquired cfg slots req hm hs]
    simp [streamCore, hu, streamStatus]

/-- Witness for C9: with capacity 0 the url-less request gets 503;
with capacity 1 it acquires and releases the slot and gets 400. -/
theorem stream_missing_url_after_slot_witness :
    (handleStream ⟨3, 0⟩ 0 ⟨"GET", "", true, .netError⟩ = ⟨.serviceUnavailable, false, false⟩)
    ∧ ((handleStream ⟨3, 1⟩ 0 ⟨"GET", "", true, .netError⟩).outcome = .missingUrl
        ∧ (handleStream ⟨3, 1⟩ 0 ⟨"GET", "", true, .netError⟩).slotAcquired = true
        ∧ (handleStream ⟨3, 1⟩ 0 ⟨"GET", "", true, .netError⟩).slotReleased = true) :=
  ⟨((stream_missing_url_after_slot ⟨3, 0⟩ 0 _ rfl rfl).1 (by decide)).1,
   ⟨((stream_missing_url_after_slot ⟨3, 1⟩ 0 _ rfl rfl).2 (by decide)).1,
    ((stream_missing_url_after_slot ⟨3, 1⟩ 0 _ rfl rfl).2 (by decide)).2.2.1,
    ((stream_missing_url_after_slot ⟨3, 1⟩ 0 _ rfl rfl).2 (by decide)).2.2.2⟩⟩

/-- C10: when the upstream declares exactly the cap (and the body
offers exactly that many bytes), the stream is not rejected as
payload-too-large — the pre-check is strict — and exactly the cap's
byte count is delivered. -/
theorem stream_exact_cap_admitted (cfg : Config) (slots : Nat) (req : StreamRequest)
    (resp : UpstreamResponse)
    (hm : req.method = "GET") (hs : slots < cfg.maxConcurrent)
    (hu : req.urlParam ≠ "") (hp : req.urlParses = true)
    (hup : req.upstream = .response resp) (hok : resp.statusCode < 400)
    (hlen : resp.contentLength = cfg.maxSize)
    (hbody : resp.body.length = cfg.maxSize.toNat) :
    (handleStream cfg slots req).outcome ≠ .payloadTooLarge
    ∧ streamStatus (handleStream cfg slots req).outcome = 200
    ∧ relayedBytes (handleStream cfg slots req).outcome = cfg.maxSize.toNat := by
  rw [handleStream_acquired cfg slots req hm hs]
  rw [show (StreamResult.mk (streamCore cfg req) true true).outcome = streamCore cfg req from rfl]
  rw [streamCore_dispatched cfg req resp hu hp hup]
  have hnot : ¬ resp.contentLength > cfg.maxSize := by omega
  simp [streamStatus, relayedBytes, hnot, Nat.not_le.mpr hok]
  rw [limitedCopy_length copyBufSize (by decide)]
  omega

/-- Witness for C10: cap 3, declared length 3, 3-byte body; the
request succeeds and all 3 bytes are delivered. -/
theorem stream_exact_cap_admitted_witness :
    (handleStream ⟨3, 2⟩ 0 ⟨"GET", "http://h/e.bin", true,
        .response ⟨200, 3, "application/x", "", [7, 7, 7]⟩⟩).outcome ≠ .payloadTooLarge
    ∧ streamStatus (handleStream ⟨3, 2⟩ 0 ⟨"GET", "http://h/e.bin", true,
        .response ⟨200, 3, "application/x", "", [7, 7, 7]⟩⟩).outcome = 200
    ∧ relayedBytes (handleStream ⟨3, 2⟩ 0 ⟨"GET", "http://h/e.bin", true,
        .response ⟨200, 3, "application/x", "", [7, 7, 7]⟩⟩).outcome = 3 :=
  stream_exact_cap_admitted ⟨3, 2⟩ 0 _ _ rfl (by decide) (by decide) rfl rfl (by decide)
    (by decide) (by decide)

/-- C6: for probe and stream alike, an upstream response with status
≥ 400 is reported as the upstream-error outcome with status 502 (the
upstream's literal status is never propagated), on a path distinct from
the upstream-unreachable outcome, which also carries 502. -/
theorem upstream_error_reported_502 (preq : ProbeRequest) (cfg : Config) (slots : Nat)
    (sreq : StreamRequest) (resp : UpstreamResponse) :
    ((preq.method = "HEAD" ∨ preq.method = "GET") → preq.urlParam ≠ "" →
      preq.urlParses = true →
      ((preq.upstream = .response resp → resp.statusCode ≥ 400 →
          handleProbe preq = .upstreamError resp.statusCode
          ∧ probeStatus (handleProbe preq) = 502
          ∧ handleProbe preq ≠ .unreachable
          ∧ (resp.statusCode ≠ 502 → probeStatus (handleProbe preq) ≠ resp.statusCode))
        ∧ (preq.upstream = .netError →
            handleProbe preq = .unreachable ∧ probeStatus (handleProbe preq) = 502)))
    ∧ (sreq.method = "GET" → slots < cfg.maxConcurrent → sreq.urlParam ≠ "" →
        sreq.urlParses = true →
        ((sreq.upstream = .response resp → resp.statusCode ≥ 400 →
            (handleStream cfg slots sreq).outcome = .upstreamError resp.statusCode
            ∧ streamStatus (handleStream cfg slots sreq).outcome = 502
            ∧ (handleStream cfg slots sreq).outcome ≠ .unreachable
            ∧ (resp.statusCode ≠ 502 →
                streamStatus (handleStream cfg slots sreq).outcome ≠ resp.statusCode))
          ∧ (sreq.upstream = .netError →
              (handleStream cfg slots sreq).outcome = .unreachable
              ∧ streamStatus (handleStream cfg slots sreq).outcome = 502))) := by
  constructor
  · intro hm hu hp
    constructor
    · intro hup hcode
      have hpr : handleProbe preq = .upstreamError resp.statusCode := by
        rw [handleProbe_dispatched preq hm hu hp, hup]
        simp [hcode]
      refine ⟨hpr, by rw [hpr]; rfl, by rw [hpr]; simp,
        fun hne => by rw [hpr]; simpa [probeStatus] using (Ne.symm hne)⟩
    · intro hup
      have hpr : handleProbe preq = .unreachable := by
        rw [handleProbe_dispatched preq hm hu hp, hup]
      exact ⟨hpr, by rw [hpr]; rfl⟩
  · intro hm hs hu hp
    constructor
    · intro hup hcode
      have hst : (handleStream cfg slots sreq).outcome = .upstreamError resp.statusCode := by
        rw [handleStream_acquired cfg slots sreq hm hs]
        rw [show (StreamResult.mk (streamCore cfg sreq) true true).outcome
            = streamCore cfg sreq from rfl]
        rw [streamCore_dispatched cfg sreq resp hu hp hup]
        simp [hcode]
      refine ⟨hst, by rw [hst]; rfl, by rw [hst]; simp,
        fun hne => by rw [hst]; simpa [streamStatus] using (Ne.symm hne)⟩
    · intro hup
      have hst : (handleStream cfg slots sreq).outcome = .unreachable := by
        rw [handleStream_acquired cfg slots sreq hm hs]
        rw [show (StreamResult.mk (streamCore cfg sreq) true true).outcome
            = streamCore cfg sreq from rfl]
        simp [streamCore, hu, hp, hup]
      exact ⟨hst, by rw [hst]; rfl⟩

/-- Witness for C6: an upstream 404 is reported as the upstream-error
outcome with status 502 by both handlers. -/
theorem upstream_error_reported_502_witness :
    (handleProbe ⟨"HEAD", "http://h/x", true, .response ⟨404, 10, "text/html", "", []⟩⟩
        = .upstreamError 404
      ∧ probeStatus (handleProbe ⟨"HEAD", "http://h/x", true,
          .response ⟨404, 10, "text/html", "", []⟩⟩) = 502)
    ∧ ((handleStream ⟨3, 2⟩ 0 ⟨"GET", "http://h/x", true,
          .response ⟨404, 10, "text/html", "", []⟩⟩).outcome = .upstreamError 404
      ∧ streamStatus (handleStream ⟨3, 2⟩ 0 ⟨"GET", "http://h/x", true,
          .response ⟨404, 10, "text/html", "", []⟩⟩).outcome = 502) := by
  have h := upstream_error_reported_502 ⟨"HEAD", "http://h/x", true,
      .response ⟨404, 10, "text/html", "", []⟩⟩ ⟨3, 2⟩ 0
      ⟨"GET", "http://h/x", true, .response ⟨404, 10, "text/html", "", []⟩⟩
      ⟨404, 10, "text/html", "", []⟩
  have hp := (h.1 (Or.inl rfl) (by decide) rfl).1 rfl (by decide)
  have hsres := (h.2 rfl (by decide) (by decide) rfl).1 rfl (by decide)
  exact ⟨⟨hp.1, hp.2.1⟩, ⟨hsres.1, hsres.2.1⟩⟩

/-- Counterexample to C7: a known content length of 0 (Go marks only
`-1` as unknown) is not copied — the code guards the header with
`ContentLength > 0`, so the claim's "known content length is copied
verbatim" fails at length 0. -/
theorem content_length_zero_not_copied :
    (0 : Int) ≥ 0
    ∧ getHeader (headersOf (handleStream ⟨3, 2⟩ 0 ⟨"GET", "http://h/z.bin", true,
        .response ⟨200, 0, "text/plain", "", []⟩⟩).outcome) "Content-Length" = none :=
  ⟨by decide, by decide⟩

/-- C7 (amended): a strictly positive declared content length is copied
verbatim into `Content-Length` (decimal rendering), a non-positive one
(unknown `-1` or known 0) produces no such header, and a non-empty
upstream content type is copied verbatim into `Content-Type`. -/
theorem stream_length_type_headers (cfg : Config) (slots : Nat) (req : StreamRequest)
    (resp : UpstreamResponse)
    (hm : req.method = "GET") (hs : slots < cfg.maxConcurrent)
    (hu : req.urlParam ≠ "") (hp : req.urlParses = true)
    (hup : req.upstream = .response resp) (hok : resp.statusCode < 400)
    (hlen : resp.contentLength ≤ cfg.maxSize) :
    (resp.contentLength > 0 →
        getHeader (headersOf (handleStream cfg slots req).outcome) "Content-Length"
          = some (toString resp.contentLength))
    ∧ (resp.contentLength ≤ 0 →
        getHeader (headersOf (handleStream cfg slots req).outcome) "Content-Length" = none)
    ∧ (resp.contentType ≠ "" →
        getHeader (headersOf (handleStream cfg slots req).outcome) "Content-Type"
          = some resp.contentType) := by
  rw [handleStream_acquired cfg slots req hm hs]
  rw [show (StreamResult.mk (streamCore cfg req) true true).outcome = streamCore cfg req from rfl]
  rw [streamCore_dispatched cfg req resp hu hp hup]
  rw [if_neg (by omega : ¬ resp.statusCode ≥ 400)]
  rw [if_neg (by omega : ¬ resp.contentLength > cfg.maxSize)]
  rw [show headersOf (.ok (streamHeaders req.urlParam resp)
      (limitedCopy copyBufSize cfg.maxSize resp.body)) = streamHeaders req.urlParam resp from rfl]
  have hCLCT : ("Content-Length" : String) ≠ "Content-Type" := by decide
  have hCLCD : ("Content-Length" : String) ≠ "Content-Disposition" := by decide
  refine ⟨fun hpos => ?_, fun hz => ?_, fun hct => ?_⟩
  · simp [streamHeaders, getHeader, hpos]
  · rw [streamHeaders, if_neg (by omega : ¬ resp.contentLength > 0)]
    by_cases hct : resp.contentType = "" <;>
      by_cases hcd : resp.contentDisposition = "" <;>
      by_cases hfn : lastUrlSegment req.urlParam = "" <;>
      simp [getHeader, hct, hcd, hfn, Ne.symm hCLCT, Ne.symm hCLCD, hCLCT, hCLCD]
  · by_cases hpos : resp.contentLength > 0 <;>
      simp [streamHeaders, getHeader, hpos, hct, hCLCT, Ne.symm hCLCT]

/-- Witness for C7 (amended): declared length 5 yields
`Content-Length: 5` and the upstream content type is copied. -/
theorem stream_length_type_headers_witness :
    getHeader (headersOf (handleStream ⟨9, 2⟩ 0 ⟨"GET", "http://h/a.txt", true,
        .response ⟨200, 5, "text/plain", "", [1, 2, 3, 4, 5]⟩⟩).outcome) "Content-Length"
      = some "5"
    ∧ getHeader (headersOf (handleStream ⟨9, 2⟩ 0 ⟨"GET", "http://h/a.txt", true,
        .response ⟨200, 5, "text/plain", "", [1, 2, 3, 4, 5]⟩⟩).outcome) "Content-Type"
      = some "text/plain" :=
  ⟨(stream_length_type_headers ⟨9, 2⟩ 0 _ _ rfl (by decide) (by decide) rfl rfl (by decide)
      (by decide)).1 (by decide),
   (stream_length_type_headers ⟨9, 2⟩ 0 _ _ rfl (by decide) (by decide) rfl rfl (by decide)
      (by decide)).2.2 (by decide)⟩

/-- Counterexample to C8: for the URL `http://h/f.zip?x=1` the
synthesized filename is `f.zip?x=1` — the last segment of the raw URL
string split on `/`, query string included — not the URL's last path
segment `f.zip` that the claim names. -/
theorem stream_disposition_raw_segment :
    getHeader (headersOf (handleStream ⟨9, 2⟩ 0 ⟨"GET", "http://h/f.zip?x=1", true,
        .response ⟨200, 3, "application/zip", "", [1, 2, 3]⟩⟩).outcome) "Content-Disposition"
      = some "attachment; filename=\"f.zip?x=1\""
    ∧ specLastPathSegment "http://h/f.zip?x=1" = "f.zip"
    ∧ getHeader (headersOf (handleStream ⟨9, 2⟩ 0 ⟨"GET", "http://h/f.zip?x=1", true,
        .response ⟨200, 3, "application/zip", "", [1, 2, 3]⟩⟩).outcome) "Content-Disposition"
      ≠ some ("attachment; filename=\"" ++ specLastPathSegment "http://h/f.zip?x=1" ++ "\"") :=
  ⟨by decide, by decide, by decide⟩

/-- C8 (amended): an upstream-supplied `Content-Disposition` is copied
as-is; otherwise an attachment disposition is synthesized whose
filename is the last `/`-separated segment of the raw target-URL string
(query string and fragment included), and no disposition header is set
when that segment is empty. -/
theorem stream_disposition_header (cfg : Config) (slots : Nat) (req : StreamRequest)
    (resp : UpstreamResponse)
    (hm : req.method = "GET") (hs : slots < cfg.maxConcurrent)
    (hu : req.urlParam ≠ "") (hp : req.urlParses = true)
    (hup : req.upstream = .response resp) (hok : resp.statusCode < 400)
    (hlen : resp.contentLength ≤ cfg.maxSize) :
    (resp.contentDisposition ≠ "" →
        getHeader (headersOf (handleStream cfg slots req).outcome) "Content-Disposition"
          = some resp.contentDisposition)
    ∧ (resp.contentDisposition = "" → lastUrlSegment req.urlParam = "" →
        getHeader (headersOf (handleStream cfg slots req).outcome) "Content-Disposition"
          = none)
    ∧ (resp.contentDisposition = "" → lastUrlSegment req.urlParam ≠ "" →
        getHeader (headersOf (handleStream cfg slots req).outcome) "Content-Disposition"
          = some ("attachment; filename=\"" ++ lastUrlSegment req.urlParam ++ "\"")) := by
  rw [handleStream_acquired cfg slots req hm hs]
  rw [show (StreamResult.mk (streamCore cfg req) true true).outcome = streamCore cfg req from rfl]
  rw [streamCore_dispatched cfg req resp hu hp hup]
  rw [if_neg (by omega : ¬ resp.statusCode ≥ 400)]
  rw [if_neg (by omega : ¬ resp.contentLength > cfg.maxSize)]
  rw [show headersOf (.ok (streamHeaders req.urlParam resp)
      (limitedCopy copyBufSize cfg.maxSize resp.body)) = streamHeaders req.urlParam resp from rfl]
  have hCLCD : ("Content-Length" : String) ≠ "Content-Disposition" := by decide
  have hCTCD : ("Content-Type" : String) ≠ "Content-Disposition" := by decide
  refine ⟨fun hcd => ?_, fun hcd hfn => ?_, fun hcd hfn => ?_⟩
  · by_cases hpos : resp.contentLength > 0 <;>
      by_cases hct : resp.contentType = "" <;>
      simp [streamHeaders, getHeader, hpos, hct, hcd, hCLCD, hCTCD,
        Ne.symm hCLCD, Ne.symm hCTCD]
  · by_cases hpos : resp.contentLength > 0 <;>
      by_cases hct : resp.contentType = "" <;>
      simp [streamHeaders, getHeader, hpos, hct, hcd, hfn, hCLCD, hCTCD,
        Ne.symm hCLCD, Ne.symm hCTCD]
  · by_cases hpos : resp.contentLength > 0 <;>
      by_cases hct : resp.contentType = "" <;>
      simp [streamHeaders, getHeader, hpos, hct, hcd, hfn, hCLCD, hCTCD,
        Ne.symm hCLCD, Ne.symm hCTCD]

/-- Witness for C8 (amended): a URL ending in `report.pdf` yields an
attachment disposition naming `report.pdf`; a URL ending in `/` yields
no disposition header; an upstream-supplied disposition is copied. -/
theorem stream_disposition_header_witness :
    getHeader (headersOf (handleStream ⟨9, 2⟩ 0 ⟨"GET", "http://h/d/report.pdf", true,
        .response ⟨200, 2, "application/pdf", "", [1, 2]⟩⟩).outcome) "Content-Disposition"
      = some "attachment; filename=\"report.pdf\""
    ∧ getHeader (headersOf (handleStream ⟨9, 2⟩ 0 ⟨"GET", "http://h/d/", true,
        .response ⟨200, 2, "application/pdf", "", [1, 2]⟩⟩).outcome) "Content-Disposition"
      = none
    ∧ getHeader (headersOf (handleStream ⟨9, 2⟩ 0 ⟨"GET", "http://h/d/x.pdf", true,
        .response ⟨200, 2, "application/pdf", "inline", [1, 2]⟩⟩).outcome) "Content-Disposition"
      = some "inline" :=
  ⟨(stream_disposition_header ⟨9, 2⟩ 0 _ _ rfl (by decide) (by decide) rfl rfl (by decide)
      (by decide)).2.2 (by decide) (by decide),
   (stream_disposition_header ⟨9, 2⟩ 0 _ _ rfl (by decide) (by decide) rfl rfl (by decide)
      (by decide)).2.1 (by decide) (by decide),
   (stream_disposition_header ⟨9, 2⟩ 0 _ _ rfl (by decide) (by decide) rfl rfl (by decide)
      (by decide)).1 (by decide)⟩

end Grabid
